import Mathlib

/-!
Shallow embedding of the resumable incremental-fetch engine of the
epic-parse repository: the quota-aware retry client
(`Youtube/api/youtube_client.py`), the per-video comment fetcher with
resume (`Youtube/api/comments.py`), the whole-channel sweep
(`Youtube/core/processor.py`) and the bounded cache
(`Youtube/utils/cache.py`).

Time is modelled as a natural-number clock threaded through the client
loop; the duration of each exponential-backoff sleep is an arbitrary
parameter `bd : Nat → Nat` (the Python value `backoff_factor * 2 ^
attempt` plus jitter), since no property below depends on its exact
value.  Timestamps (`updatedAt`, cutoff dates) are naturals ordered as
the real dates are.  The outcome of executing the i-th request of a call
is given by an oracle `world : Nat → ReqOutcome`.
-/

/-- Outcome of `request_func(self.service).execute()`: success with an
opaque response, an HTTP error with status and extracted reason, or a
non-HTTP exception. -/
inductive ReqOutcome where
  | success (resp : Nat)
  | httpError (status : Nat) (reason : Option String)
  | otherError
deriving DecidableEq

/-- Result of `YouTubeClient.retry_request`: a response, `None`
(no data / all retries failed / fatal error), or the raised
`QuotaExhaustedError`. -/
inductive RetryResult where
  | ok (resp : Nat)
  | noData
  | quotaExhausted
deriving DecidableEq

/-- Observable events of one `retry_request` call: the global
"All keys exhausted – sleeping" sleep, and each attempted execution of
the request recorded with the index of the API key the current service
was built with. -/
inductive REvent where
  | globalSleep (wait : Nat)
  | request (keyIdx : Nat)
deriving DecidableEq

/-- The mutable state of `YouTubeClient` visible to `retry_request`,
together with the call-local loop variables (`rotations`), the clock,
the count of executed requests and the event trace. -/
structure RetryState where
  keyIdx : Nat
  lastGlobalExhaustTime : Nat
  rotations : Nat
  clock : Nat
  reqCount : Nat
  trace : List REvent
deriving DecidableEq

/-- The 403 reasons treated as quota-class in `retry_request`. -/
def quotaReasons : List String :=
  ["quotaExceeded", "dailyLimitExceeded", "userRateLimitExceeded"]

/-- Whether an extracted error reason is quota-class. -/
def isQuotaReason : Option String → Bool
  | some r => r ∈ quotaReasons
  | none => false

/-- Whether an outcome is the 403 quota-class error that triggers key
rotation. -/
def quotaOutcome : ReqOutcome → Bool
  | .httpError status reason => status == 403 && isQuotaReason reason
  | _ => false

/-- The `for attempt in range(retries)` loop of
`YouTubeClient.retry_request`, recursion on the remaining fuel
(`fuel = retries - attempt`).  Mirrors, in order: the global-backoff
sleep guard, executing the request, the transient 5xx backoff branch,
the 403 quota rotation branch with pool-exhaustion raise, and the
no-retry fallthrough for other errors and non-HTTP exceptions. -/
def retryGo (world : Nat → ReqOutcome) (bd : Nat → Nat) (totalKeys : Nat) :
    Nat → Nat → RetryState → RetryState × RetryResult
  | _, 0, s => (s, .noData)
  | attempt, fuel + 1, s =>
    let s :=
      if totalKeys ≤ s.rotations ∧ s.clock - s.lastGlobalExhaustTime < 600 then
        let wait := 600 - (s.clock - s.lastGlobalExhaustTime)
        { s with clock := s.clock + wait, rotations := 0,
                 trace := s.trace ++ [.globalSleep wait] }
      else s
    let o := world s.reqCount
    let s := { s with reqCount := s.reqCount + 1,
                      trace := s.trace ++ [.request s.keyIdx] }
    match o with
    | .success r => (s, .ok r)
    | .httpError status reason =>
      if status = 500 ∨ status = 502 ∨ status = 503 ∨ status = 504 then
        retryGo world bd totalKeys (attempt + 1) fuel
          { s with clock := s.clock + bd attempt }
      else if status = 403 ∧ isQuotaReason reason then
        let rot := s.rotations + 1
        if totalKeys ≤ rot then
          ({ s with rotations := rot, lastGlobalExhaustTime := s.clock },
           .quotaExhausted)
        else
          retryGo world bd totalKeys (attempt + 1) fuel
            { s with rotations := rot, keyIdx := (s.keyIdx + 1) % totalKeys,
                     clock := s.clock + bd attempt }
      else (s, .noData)
    | .otherError => (s, .noData)

/-- `YouTubeClient.retry_request`: starts the loop with `rotations = 0`
and an empty call trace.  `keyIdx0` is the key the current service was
built with, `lastGE` the stored `last_global_exhaust_time`, `clock` the
current time. -/
def retry_request (world : Nat → ReqOutcome) (bd : Nat → Nat)
    (totalKeys retries keyIdx0 lastGE clock : Nat) :
    RetryState × RetryResult :=
  retryGo world bd totalKeys 0 retries ⟨keyIdx0, lastGE, 0, clock, 0, []⟩

/-- A request oracle that always fails with a quota-class 403, as in the
spec's quota-rotation stub. -/
def quotaWorld : Nat → ReqOutcome :=
  fun _ => .httpError 403 (some "quotaExceeded")

/-- A backoff-duration assignment of one time unit per sleep. -/
def oneBd : Nat → Nat := fun _ => 1

/-!
Embedding of `CommentManager.fetch_comments_with_resume`
(`Youtube/api/comments.py`).  The page source models
`fetch_comments_page`: a function from the requested page token to the
pair (items, nextPageToken); a failed or empty response is the pair
`([], none)`.  The database surface is reduced to what the function
touches: the starting token from `db.get_progress(video_id)` is an
input, and the sequence of `db.save_progress(video_id, tok)` calls is
accumulated in the output.
-/

/-- One item of a `commentThreads` page: its `id` and the parsed
`snippet.topLevelComment.snippet.updatedAt`. -/
structure CItem where
  id : String
  updatedAt : Nat
deriving DecidableEq

/-- A normalized comment row as built in the fetch loops (payload
fields other than identifiers, publish date and `updated_at` are
omitted as opaque). -/
structure CommentRow where
  video_id : String
  video_title : String
  channel_id : String
  channel_name : String
  video_publish_date : Nat
  comment_id : String
  updated_at : Nat
deriving DecidableEq

/-- How the loop of `fetch_comments_with_resume` ended: the repeated
page-token guard fired (logged warning), the stream is caught up (empty
page or no next token), or the modelling fuel ran out. -/
inductive FetchStop where
  | tokenRepeat
  | caughtUp
  | fuelOut
deriving DecidableEq

/-- Observable output of `fetch_comments_with_resume`: the accumulated
new rows and the sequence of cursors written via
`db.save_progress(video_id, ·)`. -/
structure FetchOut where
  results : List CommentRow
  saves : List (Option String)
deriving DecidableEq

/-- Python truthiness of a next-page token: present and non-empty. -/
def truthyTok : Option String → Bool
  | none => false
  | some t => t ≠ ""

/-- Context of one `fetch_comments_with_resume` call: resolved
metadata and the low-water-mark `most_recent` from
`get_most_recent_comment_date`. -/
structure FetchCtx where
  video_id : String
  video_title : String
  channel_id : String
  channel_name : String
  video_publish_date : Nat
  most_recent : Nat
deriving DecidableEq

/-- The per-page row filter of `fetch_comments_with_resume`: an item
becomes a new row iff `c_date > most_recent and c_date >=
video_publish_date`. -/
def newRowsOfPage (ctx : FetchCtx) (page : List CItem) : List CommentRow :=
  (page.filter
      (fun it => decide (ctx.most_recent < it.updatedAt ∧
                         ctx.video_publish_date ≤ it.updatedAt))).map
    (fun it => ⟨ctx.video_id, ctx.video_title, ctx.channel_id,
                ctx.channel_name, ctx.video_publish_date, it.id,
                it.updatedAt⟩)

/-- The `while True` loop of `fetch_comments_with_resume`, recursion on
fuel.  Mirrors, in order: the repeated-token guard, `prev_token =
page_token`, the page fetch, the empty-page break persisting `None`,
row accumulation, and the continuation decision on the truthiness of
`next_token` (persisting it when truthy, persisting `None` and breaking
otherwise). -/
def fetchLoop (source : Option String → List CItem × Option String)
    (ctx : FetchCtx) :
    Nat → Option String → Option String → FetchOut → FetchOut × FetchStop
  | 0, _, _, acc => (acc, .fuelOut)
  | fuel + 1, pageToken, prevToken, acc =>
    if pageToken.isSome ∧ pageToken = prevToken then (acc, .tokenRepeat)
    else
      let prev := pageToken
      let page := (source pageToken).1
      let nextTok := (source pageToken).2
      if page.isEmpty then
        ({ acc with saves := acc.saves ++ [none] }, .caughtUp)
      else
        let acc2 : FetchOut :=
          { acc with results := acc.results ++ newRowsOfPage ctx page }
        if truthyTok nextTok then
          fetchLoop source ctx fuel nextTok prev
            { acc2 with saves := acc2.saves ++ [nextTok] }
        else
          ({ acc2 with saves := acc2.saves ++ [none] }, .caughtUp)

/-- `CommentManager.fetch_comments_with_resume`: the starting token is
`None` when `ignore_progress` else the persisted progress, `prev_token`
starts as the `"__first_pass"` sentinel, and the accumulator starts
empty. -/
def fetch_comments_with_resume
    (source : Option String → List CItem × Option String) (ctx : FetchCtx)
    (savedProgress : Option String) (ignoreProgress : Bool) (fuel : Nat) :
    FetchOut × FetchStop :=
  let pageToken := if ignoreProgress then none else savedProgress
  fetchLoop source ctx fuel pageToken (some "__first_pass") ⟨[], []⟩

/-!
Embedding of `YouTubeProcessor.get_all_channel_comments`
(`Youtube/core/processor.py`).  The page source models the
`commentThreads.list(allThreadsRelatedToChannelId=...)` call through
`retry_request`: `none` stands for a falsy response.  The metadata of
`batch_fetch_video_metadata` is an oracle from video id to
`(title, publish date, owner channel id)`.  Progress writes go to the
key `"chan::" ++ channelId`.
-/

/-- One item of a channel-wide `commentThreads` page: thread id, the
`videoId` of the snippet (possibly absent or empty) and the parsed
`updatedAt`. -/
structure ChanItem where
  id : String
  videoId : Option String
  updatedAt : Nat
deriving DecidableEq

/-- Result of scanning the items of one channel page: `stopped` when an
item older than the cutoff was hit (the function returns, discarding
the rows built so far), `done` with the accumulated rows otherwise. -/
inductive PageScan where
  | stopped (rows : List CommentRow)
  | done (rows : List CommentRow)
deriving DecidableEq

/-- The `for itm in resp["items"]` loop of `get_all_channel_comments`:
an item older than the cutoff stops the whole sweep; items with a
falsy or unknown `videoId`, or whose video belongs to another channel,
are skipped; the rest become rows. -/
def scanChanItems (channelId chanName : String) (cutoff : Nat)
    (meta : String → Option (String × Nat × String)) :
    List ChanItem → List CommentRow → PageScan
  | [], rows => .done rows
  | itm :: rest, rows =>
    if itm.updatedAt < cutoff then .stopped rows
    else
      match itm.videoId with
      | none => scanChanItems channelId chanName cutoff meta rest rows
      | some vid =>
        if vid = "" then scanChanItems channelId chanName cutoff meta rest rows
        else
          match meta vid with
          | none => scanChanItems channelId chanName cutoff meta rest rows
          | some (title, pubDt, ownerId) =>
            if ownerId ≠ channelId then
              scanChanItems channelId chanName cutoff meta rest rows
            else
              scanChanItems channelId chanName cutoff meta rest
                (rows ++ [⟨vid, title, channelId, chanName, pubDt,
                           itm.id, itm.updatedAt⟩])

/-- How `get_all_channel_comments` ended. -/
inductive ChanStop where
  | upToDate
  | chanNotFound
  | oldCutoff
  | emptyPage
  | caughtUp
  | fuelOut
deriving DecidableEq

/-- Observable output of `get_all_channel_comments`: the sequence of
`db.save_progress(key, tok)` writes and the batches passed to
`db.insert_comments`. -/
structure ChanOut where
  saves : List (String × Option String)
  inserts : List (List CommentRow)
deriving DecidableEq

/-- The `while True` loop of `get_all_channel_comments`, recursion on
fuel.  Mirrors, in order: the page request with the falsy/empty break
persisting `None`, the item scan with the mid-page cutoff return
persisting `None` and discarding the page's rows, the `insert_comments`
call for a non-empty batch, and the cursor write of the raw
`nextPageToken` followed by the truthiness break. -/
def chanLoop (source : Option String → Option (List ChanItem × Option String))
    (channelId chanName : String) (cutoff : Nat)
    (meta : String → Option (String × Nat × String)) :
    Nat → Option String → ChanOut → ChanOut × ChanStop
  | 0, _, acc => (acc, .fuelOut)
  | fuel + 1, pageToken, acc =>
    match source pageToken with
    | none =>
      ({ acc with saves := acc.saves ++ [("chan::" ++ channelId, none)] },
       .emptyPage)
    | some (items, nextTok) =>
      if items.isEmpty then
        ({ acc with saves := acc.saves ++ [("chan::" ++ channelId, none)] },
         .emptyPage)
      else
        match scanChanItems channelId chanName cutoff meta items [] with
        | .stopped _ =>
          ({ acc with saves := acc.saves ++ [("chan::" ++ channelId, none)] },
           .oldCutoff)
        | .done rows =>
          let acc2 : ChanOut :=
            if rows.isEmpty then acc
            else { acc with inserts := acc.inserts ++ [rows] }
          let acc3 : ChanOut :=
            { acc2 with saves := acc2.saves ++ [("chan::" ++ channelId, nextTok)] }
          if truthyTok nextTok then
            chanLoop source channelId chanName cutoff meta fuel nextTok acc3
          else (acc3, .caughtUp)

/-- `YouTubeProcessor.get_all_channel_comments`: skips an up-to-date
channel (progress record present with a `None` token), returns when the
channel lookup fails, and otherwise runs the page loop from the
persisted token. -/
def get_all_channel_comments
    (source : Option String → Option (List ChanItem × Option String))
    (channelId : String) (chanResp : Option String) (cutoff : Nat)
    (meta : String → Option (String × Nat × String))
    (savedProgress : Option (Option String)) (fuel : Nat) :
    ChanOut × ChanStop :=
  match savedProgress with
  | some none => (⟨[], []⟩, .upToDate)
  | _ =>
    match chanResp with
    | none => (⟨[], []⟩, .chanNotFound)
    | some chanName =>
      let tok := match savedProgress with
        | some t => t
        | none => none
      chanLoop source channelId chanName cutoff meta fuel tok ⟨[], []⟩

/-!
Embedding of `LRUCache` (`Youtube/utils/cache.py`), a subclass of
`OrderedDict`.  Entries are kept in insertion order, oldest first.
`OrderedDict.__setitem__` on an existing key updates the value in place
without moving the key; on a new key it appends at the end.
`popitem(last=False)` removes the oldest entry.
-/

/-- The capacity-bounded cache: `max_size` and the ordered entries. -/
structure LRUCache where
  max_size : Nat
  entries : List (String × Nat)
deriving DecidableEq

/-- `OrderedDict.__setitem__`: update in place when the key exists
(position preserved), append otherwise. -/
def odSet (entries : List (String × Nat)) (k : String) (v : Nat) :
    List (String × Nat) :=
  if entries.any (fun p => p.1 = k) then
    entries.map (fun p => if p.1 = k then (k, v) else p)
  else entries ++ [(k, v)]

/-- `LRUCache.__setitem__`: pops the oldest entry whenever
`len(self) >= self.max_size`, then delegates to the `OrderedDict`
write. -/
def lruSet (c : LRUCache) (k : String) (v : Nat) : LRUCache :=
  let entries :=
    if c.max_size ≤ c.entries.length then c.entries.tail else c.entries
  { c with entries := odSet entries k v }

/-!
Concrete instances used by the theorems below.
-/

/-- The C5 scenario page source: one page of three items dated
2024-02-01, 2023-12-01 and 2024-03-01 (encoded as `yyyymmdd`
naturals), no next token. -/
def srcC5 : Option String → List CItem × Option String :=
  fun _ => ([⟨"c1", 20240201⟩, ⟨"c2", 20231201⟩, ⟨"c3", 20240301⟩], none)

/-- The C5 scenario context: stream `v123`, low-water-mark and publish
date 2024-01-01. -/
def ctxC5 : FetchCtx :=
  ⟨"v123", "Title v123", "UC1", "Chan", 20240101, 20240101⟩

/-- C5: on the spec's scenario the fetcher scans the full page without
short-circuiting at the first old item, returns exactly the two records
dated 2024-02-01 and 2024-03-01, persists the caught-up `None` cursor
once, and stops after that single page. -/
theorem C5_single_page_scenario :
    fetch_comments_with_resume srcC5 ctxC5 none false 5 =
      (⟨[⟨"v123", "Title v123", "UC1", "Chan", 20240101, "c1", 20240201⟩,
         ⟨"v123", "Title v123", "UC1", "Chan", 20240101, "c3", 20240301⟩],
        [none]⟩, .caughtUp) := by
  decide

/-- C8 counter-evidence: `LRUCache.__setitem__` neither refreshes
recency on overwrite nor spares other entries.  With capacity 2 holding
`a` and `b`, overwriting the existing key `b` evicts `a` and shrinks
the cache to one entry; with capacity 3, after overwriting `a` the key
`a` keeps its oldest position and is the first entry evicted by the
insertion of `d`, not the last candidate. -/
theorem C8_lru_overwrite_bug :
    (lruSet (lruSet (lruSet ⟨2, []⟩ "a" 1) "b" 2) "b" 3).entries
        = [("b", 3)]
    ∧ (lruSet (lruSet (lruSet (lruSet (lruSet ⟨3, []⟩ "a" 1) "b" 2)
          "a" 9) "c" 4) "d" 5).entries
        = [("b", 2), ("c", 4), ("d", 5)] := by
  decide

/-- C1 counterexample: with a pool of 6 keys and the default retry
ceiling of 5, a call under an always-quota-failing oracle returns
`None` after 5 attempts instead of attempting 6 distinct credentials
and raising the pool-exhausted error. -/
theorem C1_counterexample_six_keys :
    (retry_request quotaWorld oneBd 6 5 0 0 0).2 = .noData
    ∧ (retry_request quotaWorld oneBd 6 5 0 0 0).1.reqCount = 5
    ∧ (retry_request quotaWorld oneBd 6 5 0 0 0).2 ≠ .quotaExhausted := by
  decide

/-- C2 failing run: a first call on a 2-key pool exhausts the pool at
clock 1; a second call starting at clock 10 — well inside the 600 s
global backoff window — issues requests immediately under both keys
again (trace `[request 1, request 0]`, no global sleep event) and
raises the pool-exhausted error again, because the sleep guard tests
the call-local `rotations` counter, which is reset to 0 on entry and
can never reach the pool size before the raise. -/
theorem C2_no_backoff_sleep_on_reentry :
    (retry_request quotaWorld oneBd 2 5 0 0 0).1.lastGlobalExhaustTime = 1
    ∧ (retry_request quotaWorld oneBd 2 5 0 0 0).2 = .quotaExhausted
    ∧ 10 - 1 < 600
    ∧ (retry_request quotaWorld oneBd 2 5 1 1 10).2 = .quotaExhausted
    ∧ (retry_request quotaWorld oneBd 2 5 1 1 10).1.trace
        = [.request 1, .request 0] := by
  decide

/-!
General behaviour of the retry loop when every attempt fails with a
quota-class 403.
-/

/-- One quota-failing iteration of the retry loop that does not yet
exhaust the pool: the current key is attempted, the rotation counter
and key index advance, and the loop continues with one unit of fuel
less. -/
lemma retryGo_quota_step (world : Nat → ReqOutcome) (bd : Nat → Nat)
    (N att f k g c q : Nat) (tr : List REvent)
    (hk : k + 1 < N) (hq : quotaOutcome (world q) = true) :
    retryGo world bd N att (f + 1) ⟨k, g, k, c, q, tr⟩ =
      retryGo world bd N (att + 1) f
        ⟨k + 1, g, k + 1, c + bd att, q + 1, tr ++ [.request k]⟩ := by
  cases hwq : world q with
  | success r => rw [hwq] at hq; simp [quotaOutcome] at hq
  | otherError => rw [hwq] at hq; simp [quotaOutcome] at hq
  | httpError status reason =>
    rw [hwq] at hq
    simp only [quotaOutcome, Bool.and_eq_true, beq_iff_eq] at hq
    obtain ⟨h403, hreason⟩ := hq
    subst h403
    have hguard : ¬ (N ≤ (⟨k, g, k, c, q, tr⟩ : RetryState).rotations ∧
        (⟨k, g, k, c, q, tr⟩ : RetryState).clock -
          (⟨k, g, k, c, q, tr⟩ : RetryState).lastGlobalExhaustTime < 600) := by
      simp only []
      omega
    have h5xx : ¬ ((403 : Nat) = 500 ∨ (403 : Nat) = 502 ∨
        (403 : Nat) = 503 ∨ (403 : Nat) = 504) := by decide
    simp only [retryGo, if_neg hguard, hwq, if_neg h5xx, hreason,
      if_pos (And.intro rfl rfl)]
    rw [if_neg (by omega : ¬ N ≤ k + 1)]
    have : (k + 1) % N = k + 1 := Nat.mod_eq_of_lt (by omega)
    rw [this]
    simp

/-- The quota-failing iteration that completes the pool cycle: the
rotation counter reaches the pool size, the exhaustion timestamp is
recorded as the current clock and the pool-exhausted error is
raised. -/
lemma retryGo_quota_raise (world : Nat → ReqOutcome) (bd : Nat → Nat)
    (N att f k g c q : Nat) (tr : List REvent)
    (hk : k + 1 = N) (hq : quotaOutcome (world q) = true) :
    retryGo world bd N att (f + 1) ⟨k, g, k, c, q, tr⟩ =
      (⟨k, c, N, c, q + 1, tr ++ [.request k]⟩, .quotaExhausted) := by
  cases hwq : world q with
  | success r => rw [hwq] at hq; simp [quotaOutcome] at hq
  | otherError => rw [hwq] at hq; simp [quotaOutcome] at hq
  | httpError status reason =>
    rw [hwq] at hq
    simp only [quotaOutcome, Bool.and_eq_true, beq_iff_eq] at hq
    obtain ⟨h403, hreason⟩ := hq
    subst h403
    have hguard : ¬ (N ≤ (⟨k, g, k, c, q, tr⟩ : RetryState).rotations ∧
        (⟨k, g, k, c, q, tr⟩ : RetryState).clock -
          (⟨k, g, k, c, q, tr⟩ : RetryState).lastGlobalExhaustTime < 600) := by
      simp only []
      omega
    have h5xx : ¬ ((403 : Nat) = 500 ∨ (403 : Nat) = 502 ∨
        (403 : Nat) = 503 ∨ (403 : Nat) = 504) := by decide
    simp only [retryGo, if_neg hguard, hwq, if_neg h5xx, hreason,
      if_pos (And.intro rfl rfl)]
    rw [if_pos (by omega : N ≤ k + 1)]
    subst hk
    simp

/-- Under an always-quota-failing oracle, a retry loop entered with
`d + 1` keys left to try (current key `k`, `k + d + 1 = N`) and enough
fuel attempts keys `k, k + 1, …, N - 1` once each and raises the
pool-exhausted error, recording the exhaustion timestamp as the clock
of the final attempt. -/
lemma retryGo_quota_all (world : Nat → ReqOutcome) (bd : Nat → Nat)
    (N : Nat) (hw : ∀ i, quotaOutcome (world i) = true) :
    ∀ d k att fuel g c q tr, k + d + 1 = N → d < fuel →
      ∃ c2, retryGo world bd N att fuel ⟨k, g, k, c, q, tr⟩ =
        (⟨N - 1, c2, N, c2, q + (d + 1),
          tr ++ (List.range' k (d + 1)).map REvent.request⟩,
         .quotaExhausted) := by
  intro d
  induction d with
  | zero =>
    intro k att fuel g c q tr hkN hf
    cases fuel with
    | zero => omega
    | succ f =>
      refine ⟨c, ?_⟩
      rw [retryGo_quota_raise world bd N att f k g c q tr (by omega) (hw q)]
      have hN1 : N - 1 = k := by omega
      rw [hN1, List.range'_one]
      rfl
  | succ d ih =>
    intro k att fuel g c q tr hkN hf
    cases fuel with
    | zero => omega
    | succ f =>
      rw [retryGo_quota_step world bd N att f k g c q tr (by omega) (hw q)]
      obtain ⟨c2, hc2⟩ := ih (k + 1) (att + 1) f g (c + bd att) (q + 1)
        (tr ++ [.request k]) (by omega) (by omega)
      refine ⟨c2, ?_⟩
      rw [hc2]
      have hq : q + 1 + (d + 1) = q + (d + 1 + 1) := by omega
      have htr : (tr ++ [REvent.request k]) ++
            (List.range' (k + 1) (d + 1)).map REvent.request =
          tr ++ (List.range' k (d + 1 + 1)).map REvent.request := by
        rw [List.range'_succ, List.map_cons, List.append_assoc]
        rfl
      rw [hq, htr]

/-- C1 (amended): for a pool of `N` distinct credentials with
`1 ≤ N ≤ retries`, a single `retry_request` call under an oracle that
fails every attempt with a quota-class 403 executes the request under
exactly the `N` distinct key indices `0, …, N - 1` (and no others),
records the exhaustion timestamp as the clock of the final attempt,
and raises the pool-exhausted error. -/
theorem C1_quota_rotation_exhausts_pool (world : Nat → ReqOutcome)
    (bd : Nat → Nat) (N retries lastGE clock : Nat)
    (hN : 1 ≤ N) (hR : N ≤ retries)
    (hw : ∀ i, quotaOutcome (world i) = true) :
    (retry_request world bd N retries 0 lastGE clock).2 = .quotaExhausted
    ∧ (retry_request world bd N retries 0 lastGE clock).1.trace
        = (List.range N).map REvent.request
    ∧ (retry_request world bd N retries 0 lastGE clock).1.reqCount = N
    ∧ (retry_request world bd N retries 0 lastGE clock).1.lastGlobalExhaustTime
        = (retry_request world bd N retries 0 lastGE clock).1.clock
    ∧ ((List.range N).map REvent.request).Nodup := by
  obtain ⟨c2, h⟩ := retryGo_quota_all world bd N hw (N - 1) 0 0 retries
    lastGE clock 0 [] (by omega) (by omega)
  have hN1 : N - 1 + 1 = N := by omega
  rw [hN1] at h
  unfold retry_request
  rw [h]
  refine ⟨rfl, ?_, by simp, rfl, ?_⟩
  · rw [List.range_eq_range', List.nil_append]
  · exact List.Nodup.map
      (fun a b hab => by simpa using hab) (List.nodup_range N)

/-- Witness for C1: with 2 keys and the default retry ceiling 5, the
always-quota oracle run raises the pool-exhausted error after
attempting keys 0 and 1 once each. -/
theorem C1_quota_rotation_exhausts_pool_witness :
    (retry_request quotaWorld oneBd 2 5 0 0 0).2 = .quotaExhausted
    ∧ (retry_request quotaWorld oneBd 2 5 0 0 0).1.trace
        = (List.range 2).map REvent.request
    ∧ (retry_request quotaWorld oneBd 2 5 0 0 0).1.reqCount = 2
    ∧ (retry_request quotaWorld oneBd 2 5 0 0 0).1.lastGlobalExhaustTime
        = (retry_request quotaWorld oneBd 2 5 0 0 0).1.clock
    ∧ ((List.range 2).map REvent.request).Nodup :=
  C1_quota_rotation_exhausts_pool quotaWorld oneBd 2 5 0 0
    (by omega) (by omega) (fun i => rfl)

/-!
Properties of the per-video fetch loop.
-/

/-- Every row produced from a page passed the filter
`c_date > most_recent and c_date >= video_publish_date`. -/
lemma newRowsOfPage_mem (ctx : FetchCtx) (page : List CItem)
    (r : CommentRow) (hr : r ∈ newRowsOfPage ctx page) :
    ctx.most_recent < r.updated_at ∧
      ctx.video_publish_date ≤ r.updated_at := by
  unfold newRowsOfPage at hr
  rcases List.mem_map.mp hr with ⟨it, hit, rfl⟩
  rcases List.mem_filter.mp hit with ⟨-, hcond⟩
  exact of_decide_eq_true hcond

/-- Every row in the output of the fetch loop was in the accumulator
already or passed the per-page filter. -/
lemma fetchLoop_results_mem
    (source : Option String → List CItem × Option String) (ctx : FetchCtx) :
    ∀ fuel pageToken prevToken acc r,
      r ∈ (fetchLoop source ctx fuel pageToken prevToken acc).1.results →
      r ∈ acc.results ∨
        (ctx.most_recent < r.updated_at ∧
          ctx.video_publish_date ≤ r.updated_at) := by
  intro fuel
  induction fuel with
  | zero =>
    intro pageToken prevToken acc r hr
    exact Or.inl hr
  | succ fuel ih =>
    intro pageToken prevToken acc r hr
    by_cases hg : pageToken.isSome ∧ pageToken = prevToken
    · rw [fetchLoop, if_pos hg] at hr
      exact Or.inl hr
    · rw [fetchLoop, if_neg hg] at hr
      by_cases he : (source pageToken).1.isEmpty
      · rw [if_pos he] at hr
        exact Or.inl hr
      · rw [if_neg he] at hr
        by_cases ht : truthyTok (source pageToken).2 = true
        · rw [if_pos ht] at hr
          rcases ih _ _ _ r hr with h | h
          · rcases List.mem_append.mp h with h2 | h2
            · exact Or.inl h2
            · exact Or.inr (newRowsOfPage_mem ctx _ r h2)
          · exact Or.inr h
        · rw [if_neg ht] at hr
          rcases List.mem_append.mp hr with h2 | h2
          · exact Or.inl h2
          · exact Or.inr (newRowsOfPage_mem ctx _ r h2)

/-- Whenever the fetch loop ends caught up (an empty page, or a page
without a truthy next token), the last persisted cursor is the `None`
sentinel. -/
lemma fetchLoop_caughtUp_last
    (source : Option String → List CItem × Option String) (ctx : FetchCtx) :
    ∀ fuel pageToken prevToken acc,
      (fetchLoop source ctx fuel pageToken prevToken acc).2 = .caughtUp →
      (fetchLoop source ctx fuel pageToken prevToken acc).1.saves.getLast?
        = some none := by
  intro fuel
  induction fuel with
  | zero =>
    intro pageToken prevToken acc h
    simp [fetchLoop] at h
  | succ fuel ih =>
    intro pageToken prevToken acc h
    by_cases hg : pageToken.isSome ∧ pageToken = prevToken
    · rw [fetchLoop, if_pos hg] at h
      simp at h
    · rw [fetchLoop, if_neg hg] at h ⊢
      by_cases he : (source pageToken).1.isEmpty
      · rw [if_pos he]
        exact List.getLast?_concat _
      · rw [if_neg he] at h ⊢
        by_cases ht : truthyTok (source pageToken).2 = true
        · rw [if_pos ht] at h ⊢
          exact ih _ _ _ h
        · rw [if_neg ht]
          exact List.getLast?_concat _

/-- One continuing iteration of the fetch loop: no repeated token, a
non-empty page, a truthy next token. -/
lemma fetchLoop_step (source : Option String → List CItem × Option String)
    (ctx : FetchCtx) (fuel : Nat) (pageToken prevToken : Option String)
    (acc : FetchOut)
    (hg : ¬ (pageToken.isSome ∧ pageToken = prevToken))
    (hne : (source pageToken).1.isEmpty = false)
    (htr : truthyTok (source pageToken).2 = true) :
    fetchLoop source ctx (fuel + 1) pageToken prevToken acc =
      fetchLoop source ctx fuel (source pageToken).2 pageToken
        ⟨acc.results ++ newRowsOfPage ctx (source pageToken).1,
         acc.saves ++ [(source pageToken).2]⟩ := by
  rw [fetchLoop, if_neg hg, if_neg (by simp [hne]), if_pos htr]

/-- The abort iteration of the fetch loop: the token about to be
requested equals the previous one, so the loop stops with a warning
before fetching. -/
lemma fetchLoop_repeat (source : Option String → List CItem × Option String)
    (ctx : FetchCtx) (fuel : Nat) (pageToken prevToken : Option String)
    (acc : FetchOut) (hg : pageToken.isSome ∧ pageToken = prevToken) :
    fetchLoop source ctx (fuel + 1) pageToken prevToken acc =
      (acc, .tokenRepeat) := by
  rw [fetchLoop, if_pos hg]

/-- C3: against a page source that always answers with the same
non-empty page and the same non-null token `t`, the fetcher terminates
with the repeated-token warning after exactly two page fetches — one
extra iteration after the token first repeats — with an output
independent of any larger fuel bound, instead of looping forever. -/
theorem C3_repeated_token_guard
    (source : Option String → List CItem × Option String)
    (items : List CItem) (t : String) (ctx : FetchCtx) (fuel : Nat)
    (hsrc : ∀ tok, source tok = (items, some t))
    (hitems : items ≠ []) (ht : t ≠ "") (hfuel : 3 ≤ fuel) :
    fetch_comments_with_resume source ctx none false fuel =
      (⟨newRowsOfPage ctx items ++ newRowsOfPage ctx items,
        [some t, some t]⟩, .tokenRepeat) := by
  have hie : items.isEmpty = false := by
    cases items with
    | nil => exact absurd rfl hitems
    | cons a l => rfl
  have htt : truthyTok (some t) = true := decide_eq_true ht
  cases fuel with
  | zero => omega
  | succ f1 =>
    cases f1 with
    | zero => omega
    | succ f2 =>
      cases f2 with
      | zero => omega
      | succ f3 =>
        unfold fetch_comments_with_resume
        show fetchLoop source ctx (f3 + 1 + 1 + 1) none (some "__first_pass")
            ⟨[], []⟩ = _
        rw [fetchLoop_step source ctx _ none (some "__first_pass") ⟨[], []⟩
          (by simp) (by rw [hsrc]; exact hie) (by rw [hsrc]; exact htt)]
        simp only [hsrc]
        rw [fetchLoop_step source ctx _ (some t) none _
          (by simp) (by rw [hsrc]; exact hie) (by rw [hsrc]; exact htt)]
        simp only [hsrc]
        rw [fetchLoop_repeat source ctx _ (some t) (some t) _ ⟨rfl, rfl⟩]
        simp

/-- The C3 witness stub: every call answers one fixed item and the
constant token `X`. -/
def srcC3 : Option String → List CItem × Option String :=
  fun _ => ([⟨"i", 7⟩], some "X")

/-- A small context for the C3 witness. -/
def ctxC3 : FetchCtx := ⟨"v", "T", "C", "CN", 0, 3⟩

/-- Witness for C3 at the concrete always-`X` stub with fuel 3. -/
theorem C3_repeated_token_guard_witness :
    fetch_comments_with_resume srcC3 ctxC3 none false 3 =
      (⟨newRowsOfPage ctxC3 [⟨"i", 7⟩] ++ newRowsOfPage ctxC3 [⟨"i", 7⟩],
        [some "X", some "X"]⟩, .tokenRepeat) :=
  C3_repeated_token_guard srcC3 [⟨"i", 7⟩] "X" ctxC3 3 (fun tok => rfl)
    (by decide) (by decide) (by omega)

/-- C4: every record returned by `fetch_comments_with_resume` has
`updated_at` strictly above the low-water-mark `most_recent`; in
particular an item whose `updated_at` equals the low-water-mark is
never included — the boundary is exclusive on the newer side. -/
theorem C4_low_water_mark_exclusive
    (source : Option String → List CItem × Option String) (ctx : FetchCtx)
    (savedProgress : Option String) (ignoreProgress : Bool) (fuel : Nat)
    (r : CommentRow)
    (hr : r ∈ (fetch_comments_with_resume source ctx savedProgress
        ignoreProgress fuel).1.results) :
    ctx.most_recent < r.updated_at := by
  unfold fetch_comments_with_resume at hr
  rcases fetchLoop_results_mem source ctx fuel _ _ _ r hr with h | h
  · exact absurd h (List.not_mem_nil r)
  · exact h.1

/-- Witness for C4 on the C5 scenario source: the returned record dated
2024-02-01 is indeed strictly newer than the 2024-01-01 mark. -/
theorem C4_low_water_mark_exclusive_witness :
    (⟨"v123", "Title v123", "UC1", "Chan", 20240101, "c1", 20240201⟩ :
        CommentRow) ∈
      (fetch_comments_with_resume srcC5 ctxC5 none false 5).1.results
    ∧ ctxC5.most_recent < 20240201 :=
  ⟨by decide,
   C4_low_water_mark_exclusive srcC5 ctxC5 none false 5
     ⟨"v123", "Title v123", "UC1", "Chan", 20240101, "c1", 20240201⟩
     (by decide)⟩

/-- C9: every record returned by `fetch_comments_with_resume` also has
`updated_at` on-or-after the video's publish date; an item strictly
newer than the low-water-mark but older than `video_publish_date`
is silently dropped. -/
theorem C9_publish_date_filter
    (source : Option String → List CItem × Option String) (ctx : FetchCtx)
    (savedProgress : Option String) (ignoreProgress : Bool) (fuel : Nat)
    (r : CommentRow)
    (hr : r ∈ (fetch_comments_with_resume source ctx savedProgress
        ignoreProgress fuel).1.results) :
    ctx.video_publish_date ≤ r.updated_at := by
  unfold fetch_comments_with_resume at hr
  rcases fetchLoop_results_mem source ctx fuel _ _ _ r hr with h | h
  · exact absurd h (List.not_mem_nil r)
  · exact h.2

/-- A source for the C9 witness: one item newer than the low-water-mark
but older than the publish date, one item newer than both. -/
def srcC9 : Option String → List CItem × Option String :=
  fun _ => ([⟨"d1", 50⟩, ⟨"d2", 150⟩], none)

/-- A context for the C9 witness: low-water-mark 10, publish date 100. -/
def ctxC9 : FetchCtx := ⟨"v9", "T9", "C9", "CN9", 100, 10⟩

/-- Witness for C9: the run keeps only the item dated 150 (the item
dated 50, though newer than the mark 10, is dropped as older than the
publish date 100), and the theorem applies to the kept record. -/
theorem C9_publish_date_filter_witness :
    (fetch_comments_with_resume srcC9 ctxC9 none false 3).1.results
        = [⟨"v9", "T9", "C9", "CN9", 100, "d2", 150⟩]
    ∧ ctxC9.video_publish_date ≤ 150 :=
  ⟨by decide,
   C9_publish_date_filter srcC9 ctxC9 none false 3
     ⟨"v9", "T9", "C9", "CN9", 100, "d2", 150⟩ (by decide)⟩

/-- C6: whenever the fetch ends caught up — the page fetch came back
empty, or a page had no (truthy) next token — the cursor last persisted
for the video is the `None` caught-up sentinel, never the last seen
token. -/
theorem C6_caught_up_sentinel
    (source : Option String → List CItem × Option String) (ctx : FetchCtx)
    (savedProgress : Option String) (ignoreProgress : Bool) (fuel : Nat)
    (h : (fetch_comments_with_resume source ctx savedProgress
        ignoreProgress fuel).2 = .caughtUp) :
    (fetch_comments_with_resume source ctx savedProgress
        ignoreProgress fuel).1.saves.getLast? = some none := by
  unfold fetch_comments_with_resume at h ⊢
  exact fetchLoop_caughtUp_last source ctx fuel _ _ _ h

/-- Witness for C6 on the C5 scenario: that run ends caught up and its
final persisted cursor is `None`. -/
theorem C6_caught_up_sentinel_witness :
    (fetch_comments_with_resume srcC5 ctxC5 none false 5).2 = .caughtUp
    ∧ (fetch_comments_with_resume srcC5 ctxC5 none false 5).1.saves.getLast?
        = some none :=
  ⟨by decide, C6_caught_up_sentinel srcC5 ctxC5 none false 5 (by decide)⟩


/-!
Properties of the whole-channel sweep.
-/

/-- Whether a page scan ended in the mid-page cutoff return. -/
def PageScan.isStop : PageScan → Bool
  | .stopped _ => true
  | .done _ => false

/-- Scanning a page whose first below-cutoff item is `bad` (all items
before it on-or-after the cutoff) hits the mid-page return. -/
lemma scanChanItems_stopped (channelId chanName : String) (cutoff : Nat)
    (meta : String → Option (String × Nat × String)) (bad : ChanItem)
    (post : List ChanItem) (hbad : bad.updatedAt < cutoff) :
    ∀ pre rows, (∀ x ∈ pre, cutoff ≤ x.updatedAt) →
      (scanChanItems channelId chanName cutoff meta
        (pre ++ bad :: post) rows).isStop = true := by
  intro pre
  induction pre with
  | nil =>
    intro rows hpre
    rw [List.nil_append, scanChanItems, if_pos hbad]
    rfl
  | cons x xs ih =>
    intro rows hpre
    have hx : ¬ x.updatedAt < cutoff := by
      have := hpre x (List.mem_cons_self x xs)
      omega
    have hxs : ∀ y ∈ xs, cutoff ≤ y.updatedAt :=
      fun y hy => hpre y (List.mem_cons_of_mem x hy)
    rw [List.cons_append, scanChanItems, if_neg hx]
    split
    · exact ih rows hxs
    · split
      · exact ih rows hxs
      · split
        · exact ih rows hxs
        · split
          · exact ih rows hxs
          · exact ih _ hxs

/-- Fetching a page that contains an item older than the cutoff
(preceded only by on-or-after-cutoff items) makes the sweep return at
once: the cursor for `"chan::" ++ channelId` is persisted as `None`,
nothing is appended to the insert batches, and no further page is
requested, whatever the page's next token was. -/
lemma chanLoop_bad_page
    (source : Option String → Option (List ChanItem × Option String))
    (channelId chanName : String) (cutoff : Nat)
    (meta : String → Option (String × Nat × String)) (fuel : Nat)
    (tok : Option String) (acc : ChanOut)
    (pre post : List ChanItem) (bad : ChanItem) (nextTok : Option String)
    (hsrc : source tok = some (pre ++ bad :: post, nextTok))
    (hpre : ∀ x ∈ pre, cutoff ≤ x.updatedAt)
    (hbad : bad.updatedAt < cutoff) :
    chanLoop source channelId chanName cutoff meta (fuel + 1) tok acc =
      ({ acc with saves := acc.saves ++ [("chan::" ++ channelId, none)] },
       .oldCutoff) := by
  have hstop := scanChanItems_stopped channelId chanName cutoff meta bad post
    hbad pre [] hpre
  have hne : (pre ++ bad :: post).isEmpty = false := by
    cases pre <;> rfl
  simp only [chanLoop, hsrc]
  rw [if_neg (by simp [hne])]
  cases hsc : scanChanItems channelId chanName cutoff meta
      (pre ++ bad :: post) [] with
  | stopped r =>
    rfl
  | done r =>
    rw [hsc] at hstop
    simp [PageScan.isStop] at hstop

/-- C7: when a fetched page of the whole-channel sweep contains an item
older than the cutoff date, `get_all_channel_comments` stops the entire
sweep at that item — no later item of the page and no further page is
processed — and the cursor stored under `"chan::" ++ channel_id` is
persisted as the `None` caught-up sentinel. -/
theorem C7_channel_sweep_stops_at_old_item
    (source : Option String → Option (List ChanItem × Option String))
    (channelId chanName : String) (cutoff : Nat)
    (meta : String → Option (String × Nat × String)) (fuel : Nat)
    (tok : Option String) (acc : ChanOut)
    (pre post : List ChanItem) (bad : ChanItem) (nextTok : Option String)
    (hsrc : source tok = some (pre ++ bad :: post, nextTok))
    (hpre : ∀ x ∈ pre, cutoff ≤ x.updatedAt)
    (hbad : bad.updatedAt < cutoff) :
    chanLoop source channelId chanName cutoff meta (fuel + 1) tok acc =
      ({ acc with saves := acc.saves ++ [("chan::" ++ channelId, none)] },
       .oldCutoff) :=
  chanLoop_bad_page source channelId chanName cutoff meta fuel tok acc
    pre post bad nextTok hsrc hpre hbad

/-- The C7/C10 witness metadata oracle: one known video `v1` of channel
`UC`, published at 50. -/
def metaC7 : String → Option (String × Nat × String) :=
  fun v => if v = "v1" then some ("T", 50, "UC") else none

/-- The C7/C10 witness page source: a page whose second item (dated 40)
is older than the cutoff 100 while the first (dated 150) and third
(dated 200) are newer, with a next token present. -/
def srcC7 : Option String → Option (List ChanItem × Option String) :=
  fun _ => some ([⟨"t1", some "v1", 150⟩, ⟨"t2", some "v1", 40⟩,
                  ⟨"t3", some "v1", 200⟩], some "NEXT")

/-- Witness for C7: on the concrete page the sweep stops with the
`None` cursor under `chan::UC` despite the pending next token. -/
theorem C7_channel_sweep_stops_at_old_item_witness :
    chanLoop srcC7 "UC" "N" 100 metaC7 3 none ⟨[], []⟩ =
      (⟨[("chan::" ++ "UC", none)], []⟩, .oldCutoff) :=
  C7_channel_sweep_stops_at_old_item srcC7 "UC" "N" 100 metaC7 2 none
    ⟨[], []⟩ [⟨"t1", some "v1", 150⟩] [⟨"t3", some "v1", 200⟩]
    ⟨"t2", some "v1", 40⟩ (some "NEXT") rfl (by decide) (by decide)

/-- C10: when the sweep stops mid-page on a below-cutoff item, the
insert batches are left exactly as they were before the page: the rows
already accumulated from the items scanned before the old item are
discarded, and `insert_comments` receives nothing from the terminating
page. -/
theorem C10_terminating_page_rows_discarded
    (source : Option String → Option (List ChanItem × Option String))
    (channelId chanName : String) (cutoff : Nat)
    (meta : String → Option (String × Nat × String)) (fuel : Nat)
    (tok : Option String) (acc : ChanOut)
    (pre post : List ChanItem) (bad : ChanItem) (nextTok : Option String)
    (hsrc : source tok = some (pre ++ bad :: post, nextTok))
    (hpre : ∀ x ∈ pre, cutoff ≤ x.updatedAt)
    (hbad : bad.updatedAt < cutoff) :
    (chanLoop source channelId chanName cutoff meta (fuel + 1) tok acc).1.inserts
        = acc.inserts := by
  rw [chanLoop_bad_page source channelId chanName cutoff meta fuel tok acc
    pre post bad nextTok hsrc hpre hbad]

/-- Witness for C10: on the concrete page the first item (dated 150,
known video of the channel) would have produced a row, yet the run ends
with no insert batch at all. -/
theorem C10_terminating_page_rows_discarded_witness :
    scanChanItems "UC" "N" 100 metaC7 [⟨"t1", some "v1", 150⟩] []
        = .done [⟨"v1", "T", "UC", "N", 50, "t1", 150⟩]
    ∧ (chanLoop srcC7 "UC" "N" 100 metaC7 3 none ⟨[], []⟩).1.inserts = [] :=
  ⟨by decide,
   C10_terminating_page_rows_discarded srcC7 "UC" "N" 100 metaC7 2 none
     ⟨[], []⟩ [⟨"t1", some "v1", 150⟩] [⟨"t3", some "v1", 200⟩]
     ⟨"t2", some "v1", 40⟩ (some "NEXT") rfl (by decide) (by decide)⟩
